import Mathlib

/-!
Shallow embedding of the wopr-plugin-provider-openai core
(src/index.ts and src/realtime.ts): the streaming event translator of
CodexClient.query, the prompt assembly, the temperature-to-effort map,
the retryWithBackoff utility, and the RealtimeClient connection
lifecycle and listener dispatch.
-/

namespace WoprOpenAI

/-! ## Canonical events (the output alphabet of CodexClient.query) -/

/-- A content block inside an assistant message: a text block, or a
tool_use block with a name and an optional input command
(src/index.ts lines 509-566). -/
inductive ContentBlock where
  | text (text : String)
  | toolUse (name : String) (inputCommand : Option String)
deriving DecidableEq, Repr

/-- The canonical event union yielded by CodexClient.query
(src/index.ts lines 489-588). -/
inductive CanonicalEvent where
  | systemInit (sessionId : String)
  | systemTurnStart
  | systemReasoning (content : String)
  | systemToolResult (content : String) (exitCode : Int)
  | assistantMessage (content : List ContentBlock)
  | resultSuccess
  | resultError (errorMessages : List String)
deriving DecidableEq, Repr

/-! ## Native backend events (the Codex SDK stream consumed by query) -/

/-- The payload of an item.completed native event (src/index.ts
lines 505-567).  The otherKind constructor stands for any item type the
switch does not recognize. -/
inductive NativeItem where
  | agentMessage (text : String)
  | reasoning (text : String)
  | commandExecution (command : String) (aggregatedOutput : String) (exitCode : Int)
  | fileChange
  | mcpToolCall (server : String) (tool : String)
  | otherKind (kind : String)
deriving DecidableEq, Repr

/-- A native event of the backend stream (the switch scrutinee at
src/index.ts line 492).  threadStarted carries the optional thread_id,
turnFailed the optional error message; otherType stands for any event
type without a case in the switch. -/
inductive NativeEvent where
  | threadStarted (threadId : Option String)
  | turnStarted
  | itemCompleted (item : NativeItem)
  | turnCompleted
  | turnFailed (errorMessage : Option String)
  | otherType (ty : String)
deriving DecidableEq, Repr

/-- JavaScript-style defaulting used at src/index.ts lines 494 and 578:
`a || b` takes b when a is absent or the empty string. -/
def strFalsyOr (a : Option String) (b : String) : String :=
  match a with
  | some s => if s = "" then b else s
  | none => b

/-- The body of the per-event switch of CodexClient.query
(src/index.ts lines 492-581): one native event maps to zero or more
canonical events.  localThreadId is thread.id, the fallback for the
session id of thread.started. -/
def translateEvent (localThreadId : Option String) : NativeEvent → List CanonicalEvent
  | .threadStarted tid =>
      [.systemInit (strFalsyOr tid (strFalsyOr localThreadId ""))]
  | .turnStarted => [.systemTurnStart]
  | .itemCompleted item =>
      match item with
      | .agentMessage t => [.assistantMessage [.text t]]
      | .reasoning t => [.systemReasoning t]
      | .commandExecution cmd out code =>
          [.assistantMessage [.toolUse "bash" (some cmd)],
           .systemToolResult out code]
      | .fileChange => [.assistantMessage [.toolUse "file_change" none]]
      | .mcpToolCall server tool =>
          [.assistantMessage [.toolUse ("mcp__" ++ server ++ "__" ++ tool) none]]
      | .otherKind _ => []
  | .turnCompleted => []
  | .turnFailed msg => [.resultError [strFalsyOr msg "Unknown error"]]
  | .otherType _ => []

/-- The canonical sequence produced by CodexClient.query for a native
stream that is consumed without a transport error: the for-await loop
over the events (src/index.ts lines 489-582) followed by the
unconditional final success yield (lines 584-588). -/
def queryEvents (localThreadId : Option String) (stream : List NativeEvent) :
    List CanonicalEvent :=
  (stream.flatMap (translateEvent localThreadId)) ++ [.resultSuccess]

/-- An error raised while obtaining or consuming the backend stream
(the catch parameter at src/index.ts line 589). -/
structure QueryError where
  message : String
deriving DecidableEq, Repr

/-- The outcome of the try block of query as observed from outside:
either obtaining the stream threw (after retries), or a list of native
events was received, optionally cut short by an error thrown while
consuming the stream. -/
inductive StreamOutcome where
  | setupError (e : QueryError)
  | events (received : List NativeEvent) (consumeError : Option QueryError)
deriving Repr

/-- The wrapping applied by the catch block of query
(src/index.ts line 591). -/
def wrapQueryError (e : QueryError) : String :=
  "OpenAI query failed: " ++ e.message

/-- CodexClient.query as a whole: the canonical events yielded before
any failure, paired with the wrapped error re-raised by the catch block
(src/index.ts lines 436-592), if any. -/
def queryRun (localThreadId : Option String) :
    StreamOutcome → List CanonicalEvent × Option String
  | .setupError e => ([], some (wrapQueryError e))
  | .events evs none => (queryEvents localThreadId evs, none)
  | .events evs (some e) =>
      (evs.flatMap (translateEvent localThreadId), some (wrapQueryError e))

/-- True exactly for the terminal canonical events result/success and
result/error. -/
def isTerminal : CanonicalEvent → Bool
  | .resultSuccess => true
  | .resultError _ => true
  | _ => false

/-- True exactly for result/error. -/
def isResultError : CanonicalEvent → Bool
  | .resultError _ => true
  | _ => false

/-- True exactly for the native turn.failed event. -/
def isTurnFailed : NativeEvent → Bool
  | .turnFailed _ => true
  | _ => false

/-! ## Prompt assembly (src/index.ts lines 468-478) -/

/-- One line of the image-reference block: the 0-indexed position i is
rendered with a 1-based index (src/index.ts line 471). -/
def imageLine (i : Nat) (url : String) : String :=
  "[Image " ++ toString (i + 1) ++ "]: " ++ url

/-- The image-reference block prepended when images is non-empty
(src/index.ts lines 471-472): a header line with the image count, then
one line per image. -/
def imageBlock (images : List String) : String :=
  "[User has shared " ++ toString images.length ++ " image(s)]\n" ++
    String.intercalate "\n" (images.enum.map (fun p => imageLine p.1 p.2))

/-- The system-prompt block (src/index.ts line 477). -/
def systemBlock (sys : String) : String :=
  "[System: " ++ sys ++ "]"

/-- Prompt assembly as the code performs it (src/index.ts lines
468-478): first the image block is prepended to the user prompt, then
the system block is prepended to the result, so the system block ends
up first. -/
def assemblePrompt (userPrompt : String) (images : List String)
    (systemPrompt : Option String) : String :=
  let p1 :=
    if images.length > 0 then imageBlock images ++ "\n\n" ++ userPrompt
    else userPrompt
  match systemPrompt with
  | some sys => if sys = "" then p1 else systemBlock sys ++ "\n\n" ++ p1
  | none => p1

/-- Prompt assembly in the order the specification states it: image
block first, then system block, then the original prompt, each
separated by blank lines.  Written from the words of the spec for
comparison with assemblePrompt; it is not the code's behaviour. -/
def specOrderAssemblePrompt (userPrompt : String) (images : List String)
    (systemPrompt : Option String) : String :=
  let imgPart :=
    if images.length > 0 then imageBlock images ++ "\n\n" else ""
  let sysPart :=
    match systemPrompt with
    | some sys => if sys = "" then "" else systemBlock sys ++ "\n\n"
    | none => ""
  imgPart ++ sysPart ++ userPrompt

/-! ## Temperature to reasoning effort (src/index.ts lines 294-301) -/

/-- The 5-level reasoning effort enum of the Codex SDK. -/
inductive ReasoningEffort where
  | minimal
  | low
  | medium
  | high
  | xhigh
deriving DecidableEq, Repr

/-- temperatureToEffort (src/index.ts lines 294-301): undefined maps to
medium; otherwise a chain of inclusive upper-bound checks. -/
def temperatureToEffort (temp : Option ℚ) : ReasoningEffort :=
  match temp with
  | none => .medium
  | some t =>
    if t ≤ 0.2 then .xhigh
    else if t ≤ 0.4 then .high
    else if t ≤ 0.6 then .medium
    else if t ≤ 0.8 then .low
    else .minimal

/-! ## Retry utility (src/index.ts lines 79-121) -/

/-- The error value observed by retryWithBackoff: a message and the
optional numeric status carried on the error object
(src/index.ts lines 100-101). -/
structure RetryError where
  message : String
  status : Option Nat
deriving DecidableEq, Repr

/-- The RetryOptions record (src/index.ts lines 79-83); absent fields
take the defaults at lines 90-92. -/
structure RetryOptions where
  maxRetries : Option Nat
  baseDelayMs : Option Nat
  retryableStatusCodes : Option (List Nat)
deriving Repr

/-- Substring test on character lists: does s contain pat? -/
def charsInclude (pat : List Char) : List Char → Bool
  | [] => pat.isEmpty
  | c :: rest => pat.isPrefixOf (c :: rest) || charsInclude pat rest

/-- JavaScript String.prototype.includes, as used on the error message
(src/index.ts lines 104-109). -/
def strIncludes (s pat : String) : Bool :=
  charsInclude pat.data s.data

/-- The isRetryable test (src/index.ts lines 102-109): the status is
present, truthy and in the retryable set, or the message contains one
of the transient-network markers. -/
def isRetryableError (retryableCodes : List Nat) (e : RetryError) : Bool :=
  (match e.status with
   | some s => decide (s ≠ 0) && retryableCodes.contains s
   | none => false)
  || strIncludes e.message "ECONNRESET"
  || strIncludes e.message "ECONNREFUSED"
  || strIncludes e.message "ETIMEDOUT"
  || strIncludes e.message "fetch failed"
  || strIncludes e.message "network"
  || strIncludes e.message "socket hang up"

/-- The observable outcome of one retryWithBackoff run: the returned
value or thrown error, how many times the operation was called, and
the backoff delays awaited between calls, in order. -/
structure RetryTrace (T : Type) where
  result : Except RetryError T
  calls : Nat
  delays : List Nat
deriving Repr

/-- The for-loop of retryWithBackoff (src/index.ts lines 94-119) as a
recursion: fn gives the outcome of the call on each 0-indexed attempt;
remaining is maxRetries minus the current attempt, so remaining = 0 is
the code's attempt === maxRetries final-attempt check (line 98). -/
def retryAux {T : Type} (fn : Nat → Except RetryError T)
    (baseDelayMs : Nat) (codes : List Nat) :
    (attempt remaining : Nat) → RetryTrace T
  | attempt, remaining =>
    match fn attempt with
    | .ok v => ⟨.ok v, 1, []⟩
    | .error e =>
      match remaining with
      | 0 => ⟨.error e, 1, []⟩
      | r + 1 =>
        if isRetryableError codes e then
          let rest := retryAux fn baseDelayMs codes (attempt + 1) r
          ⟨rest.result, rest.calls + 1, baseDelayMs * 2 ^ attempt :: rest.delays⟩
        else ⟨.error e, 1, []⟩

/-- retryWithBackoff (src/index.ts lines 85-121) with the option
defaults of lines 90-92: maxRetries 3, baseDelayMs 1000, retryable
status codes 429 and 503. -/
def retryWithBackoff {T : Type} (fn : Nat → Except RetryError T)
    (opts : RetryOptions) : RetryTrace T :=
  retryAux fn (opts.baseDelayMs.getD 1000)
    (opts.retryableStatusCodes.getD [429, 503]) 0 (opts.maxRetries.getD 3)

/-! ## Realtime client (src/realtime.ts) -/

/-- WebSocket readyState constants. -/
def wsConnecting : Nat := 0

/-- WebSocket readyState OPEN. -/
def wsOpen : Nat := 1

/-- WebSocket readyState CLOSING. -/
def wsClosing : Nat := 2

/-- WebSocket readyState CLOSED. -/
def wsClosed : Nat := 3

/-- The part of a WebSocket handle the connection-lifecycle logic
reads: its readyState. -/
structure WsRef where
  readyState : Nat
deriving DecidableEq, Repr

/-- The connection-owning state of a RealtimeClient: its ws field
(src/realtime.ts line 47). -/
structure RealtimeClientState where
  ws : Option WsRef
deriving DecidableEq, Repr

/-- The guard at the top of RealtimeClient.connect (src/realtime.ts
lines 74-80): reject when the current socket is CONNECTING or OPEN;
clear a socket left in CLOSING or CLOSED state before proceeding. -/
def connectGuard (s : RealtimeClientState) : Except String RealtimeClientState :=
  match s.ws with
  | some w =>
    if w.readyState = wsConnecting ∨ w.readyState = wsOpen then
      .error "Realtime connection already active. Call disconnect() before reconnecting."
    else if wsClosing ≤ w.readyState then
      .ok ⟨none⟩
    else
      .ok s
  | none => .ok s

/-- RealtimeClient.disconnect (src/realtime.ts lines 303-308): when a
socket is held, close it with code 1000 and reason "Client disconnect"
and null the field; otherwise do nothing.  Returns the new state and
the close calls issued. -/
def disconnect (s : RealtimeClientState) :
    RealtimeClientState × List (Nat × String) :=
  match s.ws with
  | some _ => (⟨none⟩, [(1000, "Client disconnect")])
  | none => (s, [])

/-- The canonical realtime event union (src/realtime.ts lines 35-42).
Audio payloads are byte lists. -/
inductive RtEvent where
  | sessionCreated (sessionId : String)
  | audio (data : List Nat)
  | transcript (text : String) (isAssistant : Bool)
  | text (text : String)
  | toolCall (callId : String) (name : String) (args : String)
  | rtError (message : String) (code : Option String)
  | closed (reason : String)
deriving DecidableEq, Repr

/-- A registered event listener: a callback that may throw
(src/realtime.ts line 44); a throw is an Except.error with the thrown
message. -/
def RtListener : Type := RtEvent → Except String Unit

/-- What one emit call does, observably: the event each listener was
invoked with, in order, and the messages of exceptions caught by the
per-listener try/catch. -/
structure EmitTrace where
  invoked : List RtEvent
  loggedErrors : List String
deriving DecidableEq, Repr

/-- RealtimeClient.emit (src/realtime.ts lines 64-72): loop over the
listeners; each call is wrapped in try/catch, a caught error is logged
and iteration continues.  The Except return type records whether any
exception escapes the loop; the error branch of the recursion is the
propagation that would occur without the catch. -/
def emit (ev : RtEvent) : List RtListener → Except String EmitTrace
  | [] => .ok ⟨[], []⟩
  | l :: rest =>
    let caught : List String :=
      match l ev with
      | .ok _ => []
      | .error m => [m]
    match emit ev rest with
    | .ok t => .ok ⟨ev :: t.invoked, caught ++ t.loggedErrors⟩
    | .error e => .error e

/-! ## Theorems -/

/-- C6: translating a completed command-execution item yields exactly two
canonical events in order: the assistant message with one tool_use block
named bash carrying the command, then the system tool_result with the
aggregated output and exit code. -/
theorem commandExecution_two_events (tid : Option String) (cmd out : String)
    (code : Int) :
    translateEvent tid (.itemCompleted (.commandExecution cmd out code)) =
      [.assistantMessage [.toolUse "bash" (some cmd)],
       .systemToolResult out code] := rfl

/-- C9: disconnect is idempotent — after one call the client holds no
socket (closed state), a second call leaves it closed and issues no
further close, and both calls are total (no error). -/
theorem disconnect_idempotent (s : RealtimeClientState) :
    (disconnect s).1.ws = none
    ∧ (disconnect (disconnect s).1).1.ws = none
    ∧ disconnect (disconnect s).1 = ((disconnect s).1, []) := by
  cases h : s.ws <;> simp [disconnect, h]

/-- C3: the derived reasoning effort is xhigh on [0, 0.2], high on
(0.2, 0.4], medium on (0.4, 0.6], low on (0.6, 0.8], minimal on
(0.8, 1], and medium when the temperature is undefined; each boundary
value maps to the higher-effort side by the inclusive upper bound. -/
theorem temperatureToEffort_bands :
    temperatureToEffort none = .medium
    ∧ (∀ t : ℚ, 0 ≤ t → t ≤ 0.2 → temperatureToEffort (some t) = .xhigh)
    ∧ (∀ t : ℚ, 0.2 < t → t ≤ 0.4 → temperatureToEffort (some t) = .high)
    ∧ (∀ t : ℚ, 0.4 < t → t ≤ 0.6 → temperatureToEffort (some t) = .medium)
    ∧ (∀ t : ℚ, 0.6 < t → t ≤ 0.8 → temperatureToEffort (some t) = .low)
    ∧ (∀ t : ℚ, 0.8 < t → t ≤ 1 → temperatureToEffort (some t) = .minimal) := by
  refine ⟨rfl, ?_, ?_, ?_, ?_, ?_⟩ <;>
    intro t h1 h2 <;>
    simp only [temperatureToEffort] <;>
    split_ifs <;> first | rfl | linarith

/-- Witness for C3: concrete temperatures in each band. -/
theorem temperatureToEffort_bands_witness :
    temperatureToEffort (some 0.1) = .xhigh
    ∧ temperatureToEffort (some 0.3) = .high
    ∧ temperatureToEffort (some 0.5) = .medium
    ∧ temperatureToEffort (some 0.7) = .low
    ∧ temperatureToEffort (some 0.9) = .minimal :=
  ⟨temperatureToEffort_bands.2.1 0.1 (by norm_num) (by norm_num),
   temperatureToEffort_bands.2.2.1 0.3 (by norm_num) (by norm_num),
   temperatureToEffort_bands.2.2.2.1 0.5 (by norm_num) (by norm_num),
   temperatureToEffort_bands.2.2.2.2.1 0.7 (by norm_num) (by norm_num),
   temperatureToEffort_bands.2.2.2.2.2 0.9 (by norm_num) (by norm_num)⟩

/-- C2 counterexample: at user prompt "p", images ["u"] and system
prompt "s", the assembled prompt differs from the order the claim
states (image block, then system block, then prompt): the code places
the system block first. -/
theorem assemblePrompt_claim_false :
    assemblePrompt "p" ["u"] (some "s") ≠
      specOrderAssemblePrompt "p" ["u"] (some "s")
    ∧ assemblePrompt "p" ["u"] (some "s") =
      "[System: s]\n\n[User has shared 1 image(s)]\n[Image 1]: u\n\np" := by
  constructor
  · decide
  · rfl

/-- C2 (amended): with non-empty images and a non-empty system prompt,
the assembled prompt is, in order, the system-prompt block, then the
image-reference block (one line per image with a 1-based index), then
the original user prompt, each separated by blank lines. -/
theorem assemblePrompt_order (userPrompt : String) (images : List String)
    (sys : String) (himg : images ≠ []) (hsys : sys ≠ "") :
    assemblePrompt userPrompt images (some sys) =
      systemBlock sys ++ "\n\n" ++ (imageBlock images ++ "\n\n" ++ userPrompt) := by
  have h1 : 0 < images.length := List.length_pos.mpr himg
  simp [assemblePrompt, h1, hsys]

/-- Witness for C2 (amended): a concrete assembly. -/
theorem assemblePrompt_order_witness :
    assemblePrompt "p" ["u"] (some "s") =
      systemBlock "s" ++ "\n\n" ++ (imageBlock ["u"] ++ "\n\n" ++ "p") :=
  assemblePrompt_order "p" ["u"] "s" (by decide) (by decide)

/-- C1: evaluation of the code at the failing input — a native stream
ending in turn.failed yields result/error immediately followed by the
unconditional final result/success, so the last canonical event is
result/success and two terminal events occur, where the claim and the
spec require result/error last and no result/success. -/
theorem queryEvents_turnFailed_also_emits_success :
    queryEvents none [.turnFailed (some "Rate limit exceeded")] =
      [.resultError ["Rate limit exceeded"], .resultSuccess]
    ∧ (queryEvents none [.turnFailed (some "Rate limit exceeded")]).getLast? =
      some .resultSuccess
    ∧ ((queryEvents none [.turnFailed (some "Rate limit exceeded")]).filter
        isTerminal).length = 2 := by
  refine ⟨by decide, by decide, by decide⟩

/-- C8: when the held socket is CONNECTING or OPEN, connect rejects
with the connection-already-active error; when the held socket is in a
closing or terminal state (readyState at least CLOSING), it is cleared
and the attempt proceeds. -/
theorem connect_active_guard :
    (∀ w : WsRef, w.readyState = wsConnecting ∨ w.readyState = wsOpen →
       connectGuard ⟨some w⟩ =
         .error "Realtime connection already active. Call disconnect() before reconnecting.")
    ∧ (∀ w : WsRef, wsClosing ≤ w.readyState →
       connectGuard ⟨some w⟩ = .ok ⟨none⟩) := by
  constructor
  · intro w h
    simp only [connectGuard]
    rw [if_pos h]
  · intro w h
    have hne : ¬(w.readyState = wsConnecting ∨ w.readyState = wsOpen) := by
      simp only [wsConnecting, wsOpen, wsClosing] at *
      omega
    simp only [connectGuard]
    rw [if_neg hne, if_pos h]

/-- Witness for C8: an OPEN socket is rejected; a CLOSED socket is
cleared. -/
theorem connect_active_guard_witness :
    connectGuard ⟨some ⟨1⟩⟩ =
      .error "Realtime connection already active. Call disconnect() before reconnecting."
    ∧ connectGuard ⟨some ⟨3⟩⟩ = .ok ⟨none⟩ :=
  ⟨connect_active_guard.1 ⟨1⟩ (Or.inr rfl),
   connect_active_guard.2 ⟨3⟩ (by decide)⟩

/-! ### Retry lemmas -/

/-- Unfolding: a successful call returns at once. -/
theorem retryAux_ok {T : Type} (fn : Nat → Except RetryError T) (b : Nat)
    (codes : List Nat) (a r : Nat) (v : T) (h : fn a = .ok v) :
    retryAux fn b codes a r = ⟨.ok v, 1, []⟩ := by
  rw [retryAux, h]

/-- Unfolding: an error on the final attempt is rethrown. -/
theorem retryAux_error_last {T : Type} (fn : Nat → Except RetryError T) (b : Nat)
    (codes : List Nat) (a : Nat) (e : RetryError) (h : fn a = .error e) :
    retryAux fn b codes a 0 = ⟨.error e, 1, []⟩ := by
  rw [retryAux, h]

/-- Unfolding: a retryable error on a non-final attempt waits
b * 2 ^ attempt and retries. -/
theorem retryAux_error_retry {T : Type} (fn : Nat → Except RetryError T) (b : Nat)
    (codes : List Nat) (a r : Nat) (e : RetryError) (h : fn a = .error e)
    (hr : isRetryableError codes e = true) :
    retryAux fn b codes a (r + 1) =
      ⟨(retryAux fn b codes (a + 1) r).result,
       (retryAux fn b codes (a + 1) r).calls + 1,
       b * 2 ^ a :: (retryAux fn b codes (a + 1) r).delays⟩ := by
  rw [retryAux, h]
  simp [hr]

/-- Unfolding: a non-retryable error on a non-final attempt is
rethrown. -/
theorem retryAux_error_stop {T : Type} (fn : Nat → Except RetryError T) (b : Nat)
    (codes : List Nat) (a r : Nat) (e : RetryError) (h : fn a = .error e)
    (hr : isRetryableError codes e = false) :
    retryAux fn b codes a (r + 1) = ⟨.error e, 1, []⟩ := by
  rw [retryAux, h]
  simp [hr]

/-- The loop makes at most remaining + 1 calls. -/
theorem retryAux_calls_le {T : Type} (fn : Nat → Except RetryError T) (b : Nat)
    (codes : List Nat) :
    ∀ r a, (retryAux fn b codes a r).calls ≤ r + 1 := by
  intro r
  induction r with
  | zero =>
    intro a
    cases h : fn a with
    | ok v => rw [retryAux_ok fn b codes a 0 v h]
    | error e => rw [retryAux_error_last fn b codes a e h]
  | succ n ih =>
    intro a
    cases h : fn a with
    | ok v =>
      rw [retryAux_ok fn b codes a (n + 1) v h]
      show 1 ≤ n + 1 + 1
      omega
    | error e =>
      by_cases hr : isRetryableError codes e
      · rw [retryAux_error_retry fn b codes a n e h hr]
        show (retryAux fn b codes (a + 1) n).calls + 1 ≤ n + 1 + 1
        have := ih (a + 1)
        omega
      · rw [retryAux_error_stop fn b codes a n e h (by simpa using hr)]
        show 1 ≤ n + 1 + 1
        omega

/-- When every call fails retryably, all remaining + 1 calls are made,
the final error is the error of the last call, and the delays are the
full exponential schedule. -/
theorem retryAux_all_fail {T : Type} (fn : Nat → Except RetryError T) (b : Nat)
    (codes : List Nat) (err : Nat → RetryError)
    (hfn : ∀ n, fn n = .error (err n))
    (hret : ∀ n, isRetryableError codes (err n) = true) :
    ∀ r a, retryAux fn b codes a r =
      ⟨.error (err (a + r)), r + 1,
       (List.range r).map (fun n => b * 2 ^ (a + n))⟩ := by
  intro r
  induction r with
  | zero =>
    intro a
    rw [retryAux_error_last fn b codes a (err a) (hfn a)]
    simp
  | succ n ih =>
    intro a
    rw [retryAux_error_retry fn b codes a n (err a) (hfn a) (hret a), ih (a + 1)]
    have hfun : (fun k => b * 2 ^ (a + Nat.succ k)) =
        (fun k => b * 2 ^ (a + 1 + k)) := by
      funext k
      have hk : a + Nat.succ k = a + 1 + k := by omega
      rw [hk]
    have hd : (List.range (n + 1)).map (fun k => b * 2 ^ (a + k)) =
        b * 2 ^ a :: (List.range n).map (fun k => b * 2 ^ (a + 1 + k)) := by
      rw [List.range_succ_eq_map, List.map_cons, List.map_map]
      simp only [Function.comp_def, Nat.add_zero, hfun]
    rw [hd]
    have ha : a + 1 + n = a + (n + 1) := by omega
    rw [ha]

/-- The delays of any run form the exponential schedule starting at the
first attempt index. -/
theorem retryAux_delays_formula {T : Type} (fn : Nat → Except RetryError T)
    (b : Nat) (codes : List Nat) :
    ∀ r a, (retryAux fn b codes a r).delays =
      (List.range (retryAux fn b codes a r).delays.length).map
        (fun n => b * 2 ^ (a + n)) := by
  intro r
  induction r with
  | zero =>
    intro a
    cases h : fn a with
    | ok v =>
      rw [retryAux_ok fn b codes a 0 v h]
      rfl
    | error e =>
      rw [retryAux_error_last fn b codes a e h]
      rfl
  | succ n ih =>
    intro a
    cases h : fn a with
    | ok v =>
      rw [retryAux_ok fn b codes a (n + 1) v h]
      rfl
    | error e =>
      by_cases hr : isRetryableError codes e
      · rw [retryAux_error_retry fn b codes a n e h hr]
        show b * 2 ^ a :: (retryAux fn b codes (a + 1) n).delays =
          (List.range (b * 2 ^ a ::
            (retryAux fn b codes (a + 1) n).delays).length).map
            (fun k => b * 2 ^ (a + k))
        have hfun : (fun k => b * 2 ^ (a + Nat.succ k)) =
            (fun k => b * 2 ^ (a + 1 + k)) := by
          funext k
          have hk : a + Nat.succ k = a + 1 + k := by omega
          rw [hk]
        rw [List.length_cons, List.range_succ_eq_map, List.map_cons,
          List.map_map]
        simp only [Function.comp_def, Nat.add_zero, hfun]
        rw [List.cons_inj_right]
        exact ih (a + 1)
      · rw [retryAux_error_stop fn b codes a n e h (by simpa using hr)]
        rfl

/-- C4: the operation is called at most maxRetries + 1 times; a
non-retryable first failure means exactly one call and the original
error rethrown unchanged; an operation that always fails retryably is
called exactly maxRetries + 1 times and the final error is the last
observed one; maxRetries = 0 means exactly one attempt. -/
theorem retryWithBackoff_call_bounds :
    (∀ (T : Type) (fn : Nat → Except RetryError T) (opts : RetryOptions),
       (retryWithBackoff fn opts).calls ≤ opts.maxRetries.getD 3 + 1)
    ∧ (∀ (T : Type) (fn : Nat → Except RetryError T) (opts : RetryOptions)
         (e : RetryError),
       fn 0 = .error e →
       isRetryableError (opts.retryableStatusCodes.getD [429, 503]) e = false →
       retryWithBackoff fn opts = ⟨.error e, 1, []⟩)
    ∧ (∀ (T : Type) (fn : Nat → Except RetryError T) (opts : RetryOptions)
         (err : Nat → RetryError),
       (∀ n, fn n = .error (err n)) →
       (∀ n, isRetryableError (opts.retryableStatusCodes.getD [429, 503])
          (err n) = true) →
       (retryWithBackoff fn opts).calls = opts.maxRetries.getD 3 + 1
       ∧ (retryWithBackoff fn opts).result =
           .error (err (opts.maxRetries.getD 3)))
    ∧ (∀ (T : Type) (fn : Nat → Except RetryError T) (opts : RetryOptions),
       opts.maxRetries = some 0 → (retryWithBackoff fn opts).calls = 1) := by
  refine ⟨?_, ?_, ?_, ?_⟩
  · intro T fn opts
    exact retryAux_calls_le fn _ _ (opts.maxRetries.getD 3) 0
  · intro T fn opts e h hnr
    unfold retryWithBackoff
    cases hm : opts.maxRetries.getD 3 with
    | zero => exact retryAux_error_last fn _ _ 0 e h
    | succ r => exact retryAux_error_stop fn _ _ 0 r e h hnr
  · intro T fn opts err hfn hret
    unfold retryWithBackoff
    rw [retryAux_all_fail fn _ _ err hfn hret (opts.maxRetries.getD 3) 0]
    simp
  · intro T fn opts hm
    unfold retryWithBackoff
    rw [hm]
    simp only [Option.getD_some]
    cases h : fn 0 with
    | ok v => rw [retryAux_ok fn _ _ 0 0 v h]
    | error e => rw [retryAux_error_last fn _ _ 0 e h]

/-- Witness for C4: a non-retryable 400 fails once with the original
error; an always-failing 429 is called 4 times under the default
maxRetries of 3; maxRetries = 0 makes one attempt. -/
theorem retryWithBackoff_call_bounds_witness :
    retryWithBackoff
        (fun _ => (.error ⟨"bad request", some 400⟩ : Except RetryError Nat))
        ⟨none, none, none⟩ = ⟨.error ⟨"bad request", some 400⟩, 1, []⟩
    ∧ (retryWithBackoff
        (fun _ => (.error ⟨"rate limited", some 429⟩ : Except RetryError Nat))
        ⟨none, none, none⟩).calls = 3 + 1
    ∧ (retryWithBackoff (fun _ => (.ok 5 : Except RetryError Nat))
        ⟨some 0, none, none⟩).calls = 1 := by
  refine ⟨?_, ?_, ?_⟩
  · exact retryWithBackoff_call_bounds.2.1 Nat _ ⟨none, none, none⟩
      ⟨"bad request", some 400⟩ rfl (by decide)
  · have hr : isRetryableError [429, 503]
        (⟨"rate limited", some 429⟩ : RetryError) = true := by decide
    exact (retryWithBackoff_call_bounds.2.2.1 Nat _ ⟨none, none, none⟩
      (fun _ => ⟨"rate limited", some 429⟩) (fun _ => rfl) (fun _ => hr)).1
  · exact retryWithBackoff_call_bounds.2.2.2 Nat _ ⟨some 0, none, none⟩ rfl

/-- C5: the delays of any run are baseDelayMs * 2 ^ n for the 0-indexed
failing attempt n; an operation failing retryably on the first two
attempts and succeeding on the third (maxRetries at least 2) is called
exactly 3 times with delays baseDelayMs then 2 * baseDelayMs; an
operation succeeding at once is called once with no delay. -/
theorem retryWithBackoff_delay_schedule :
    (∀ (T : Type) (fn : Nat → Except RetryError T) (opts : RetryOptions),
       (retryWithBackoff fn opts).delays =
         (List.range (retryWithBackoff fn opts).delays.length).map
           (fun n => opts.baseDelayMs.getD 1000 * 2 ^ n))
    ∧ (∀ (T : Type) (fn : Nat → Except RetryError T) (opts : RetryOptions)
         (e0 e1 : RetryError) (v : T),
       fn 0 = .error e0 →
       isRetryableError (opts.retryableStatusCodes.getD [429, 503]) e0 = true →
       fn 1 = .error e1 →
       isRetryableError (opts.retryableStatusCodes.getD [429, 503]) e1 = true →
       fn 2 = .ok v →
       2 ≤ opts.maxRetries.getD 3 →
       retryWithBackoff fn opts =
         ⟨.ok v, 3, [opts.baseDelayMs.getD 1000,
                     2 * opts.baseDelayMs.getD 1000]⟩)
    ∧ (∀ (T : Type) (fn : Nat → Except RetryError T) (opts : RetryOptions)
         (v : T),
       fn 0 = .ok v → retryWithBackoff fn opts = ⟨.ok v, 1, []⟩) := by
  refine ⟨?_, ?_, ?_⟩
  · intro T fn opts
    have h := retryAux_delays_formula fn (opts.baseDelayMs.getD 1000)
      (opts.retryableStatusCodes.getD [429, 503]) (opts.maxRetries.getD 3) 0
    simpa [retryWithBackoff] using h
  · intro T fn opts e0 e1 v h0 hr0 h1 hr1 h2 hm
    obtain ⟨m, hm2⟩ : ∃ m, opts.maxRetries.getD 3 = m + 2 :=
      ⟨opts.maxRetries.getD 3 - 2, by omega⟩
    unfold retryWithBackoff
    rw [hm2]
    rw [retryAux_error_retry fn _ _ 0 (m + 1) e0 h0 hr0]
    rw [retryAux_error_retry fn _ _ 1 m e1 h1 hr1]
    rw [retryAux_ok fn _ _ 2 m v h2]
    simp [pow_succ, Nat.mul_comm]
  · intro T fn opts v h
    unfold retryWithBackoff
    exact retryAux_ok fn _ _ 0 (opts.maxRetries.getD 3) v h

/-- Witness for C5: an operation failing with 429 on attempts 0 and 1
and succeeding on attempt 2, with baseDelayMs 100, runs 3 calls with
delays 100 then 200; an immediately successful operation runs once. -/
theorem retryWithBackoff_delay_schedule_witness :
    retryWithBackoff
        (fun n => if n < 2
          then (.error ⟨"rate limited", some 429⟩ : Except RetryError Nat)
          else .ok 7)
        ⟨none, some 100, none⟩ = ⟨.ok 7, 3, [100, 200]⟩
    ∧ retryWithBackoff (fun _ => (.ok 5 : Except RetryError Nat))
        ⟨none, none, none⟩ = ⟨.ok 5, 1, []⟩ := by
  constructor
  · have h := retryWithBackoff_delay_schedule.2.1 Nat
      (fun n => if n < 2
        then (.error ⟨"rate limited", some 429⟩ : Except RetryError Nat)
        else .ok 7)
      ⟨none, some 100, none⟩ ⟨"rate limited", some 429⟩
      ⟨"rate limited", some 429⟩ 7 rfl (by decide) rfl (by decide) rfl
      (by decide)
    simpa using h
  · exact retryWithBackoff_delay_schedule.2.2 Nat _ ⟨none, none, none⟩ 5 rfl

/-! ### Transport-failure and listener-dispatch lemmas -/

/-- The translator only produces result/error for a native turn.failed
event. -/
theorem translateEvent_no_error (tid : Option String) (ev : NativeEvent)
    (h : isTurnFailed ev = false) (c : CanonicalEvent)
    (hc : c ∈ translateEvent tid ev) : isResultError c = false := by
  cases ev with
  | itemCompleted item =>
    cases item <;> simp_all [translateEvent, isResultError]
    rcases hc with rfl | rfl <;> rfl
  | turnFailed m => simp [isTurnFailed] at h
  | _ => simp_all [translateEvent, isResultError]

/-- C7: a failure while obtaining the stream yields no canonical event
and re-raises the error wrapped with the component prefix; a failure
while consuming the stream re-raises the wrapped error after only the
translations of the events received, and (when no native turn.failed
was received) no result/error canonical event is emitted — the
transport failure is never converted into one. -/
theorem query_transport_error_rethrown (tid : Option String) (e : QueryError)
    (evs : List NativeEvent) :
    queryRun tid (.setupError e) =
      ([], some ("OpenAI query failed: " ++ e.message))
    ∧ queryRun tid (.events evs (some e)) =
      (evs.flatMap (translateEvent tid),
       some ("OpenAI query failed: " ++ e.message))
    ∧ ((∀ ev ∈ evs, isTurnFailed ev = false) →
        ∀ c ∈ (queryRun tid (.events evs (some e))).1,
          isResultError c = false) := by
  refine ⟨rfl, rfl, ?_⟩
  intro hall c hc
  simp only [queryRun, List.mem_flatMap] at hc
  obtain ⟨ev, hev, hcev⟩ := hc
  exact translateEvent_no_error tid ev (hall ev hev) c hcev

/-- Witness for C7: a concrete transport error during setup and during
consumption. -/
theorem query_transport_error_rethrown_witness :
    queryRun none (.setupError ⟨"socket hang up"⟩) =
      ([], some ("OpenAI query failed: " ++ "socket hang up"))
    ∧ queryRun none (.events [.turnStarted] (some ⟨"socket hang up"⟩)) =
      ([.turnStarted].flatMap (translateEvent none),
       some ("OpenAI query failed: " ++ "socket hang up"))
    ∧ ∀ c ∈ (queryRun none (.events [.turnStarted]
        (some ⟨"socket hang up"⟩))).1, isResultError c = false := by
  have h := query_transport_error_rethrown none ⟨"socket hang up"⟩ [.turnStarted]
  exact ⟨h.1, h.2.1, h.2.2 (by decide)⟩

/-- emit never lets an exception escape and invokes every listener with
the emitted event, in order. -/
theorem emit_total (ev : RtEvent) (ls : List RtListener) :
    ∃ t : EmitTrace, emit ev ls = .ok t
      ∧ t.invoked = List.replicate ls.length ev := by
  induction ls with
  | nil => exact ⟨⟨[], []⟩, rfl, rfl⟩
  | cons l rest ih =>
    obtain ⟨t, ht, hinv⟩ := ih
    cases hle : l ev with
    | ok u =>
      refine ⟨⟨ev :: t.invoked, [] ++ t.loggedErrors⟩, ?_, ?_⟩
      · simp [emit, hle, ht]
      · simp [hinv, List.replicate, List.length_cons]
    | error m =>
      refine ⟨⟨ev :: t.invoked, [m] ++ t.loggedErrors⟩, ?_, ?_⟩
      · simp [emit, hle, ht]
      · simp [hinv, List.replicate, List.length_cons]

/-- C10: if one registered listener throws on the emitted event, the
exception does not escape emit (the run still completes with a trace,
the thrown message merely logged) and every listener is still invoked
with the same event. -/
theorem emit_isolates_listener_throw (ls : List RtListener) (ev : RtEvent)
    (l : RtListener) (m : String) (hl : l ∈ ls) (hthrow : l ev = .error m) :
    ∃ t : EmitTrace, emit ev ls = .ok t
      ∧ t.invoked = List.replicate ls.length ev
      ∧ m ∈ t.loggedErrors := by
  induction ls with
  | nil => cases hl
  | cons a rest ih =>
    rcases List.mem_cons.mp hl with heq | hmem
    · subst heq
      obtain ⟨t, ht, hinv⟩ := emit_total ev rest
      refine ⟨⟨ev :: t.invoked, [m] ++ t.loggedErrors⟩, ?_, ?_, ?_⟩
      · simp [emit, hthrow, ht]
      · simp [hinv, List.replicate, List.length_cons]
      · simp
    · obtain ⟨t, ht, hinv, hmemlog⟩ := ih hmem
      cases hle : a ev with
      | ok u =>
        refine ⟨⟨ev :: t.invoked, [] ++ t.loggedErrors⟩, ?_, ?_, ?_⟩
        · simp [emit, hle, ht]
        · simp [hinv, List.replicate, List.length_cons]
        · simpa using hmemlog
      | error m2 =>
        refine ⟨⟨ev :: t.invoked, [m2] ++ t.loggedErrors⟩, ?_, ?_, ?_⟩
        · simp [emit, hle, ht]
        · simp [hinv, List.replicate, List.length_cons]
        · simp [hmemlog]

/-- A listener that always throws, for the C10 witness. -/
def throwingListener : RtListener := fun _ => .error "listener boom"

/-- A listener that always succeeds, for the C10 witness. -/
def okListener : RtListener := fun _ => .ok ()

/-- Witness for C10: with a throwing listener followed by a normal one,
emit completes, both listeners are invoked with the event, and the
thrown message is caught. -/
theorem emit_isolates_listener_throw_witness :
    ∃ t : EmitTrace, emit (.text "hi") [throwingListener, okListener] = .ok t
      ∧ t.invoked = List.replicate 2 (.text "hi")
      ∧ "listener boom" ∈ t.loggedErrors := by
  have h := emit_isolates_listener_throw [throwingListener, okListener]
    (.text "hi") throwingListener "listener boom"
    (List.mem_cons_self throwingListener [okListener]) rfl
  simpa using h

end WoprOpenAI
